import Mathlib

/-!
Shallow embedding of `src/report.py` (AI maintenance report generator):
a Streamlit script with three pieces of logic,

* `generate_report` — builds a prompt from the four incident fields and
  calls a remote text-generation backend, returning the trimmed response;
* `save_to_excel` — appends one record to a spreadsheet-backed log,
  with a schema check against the fixed header, a concat, a full rewrite
  and cosmetic cell formatting;
* `load_reports` — reads the full log back, or a fresh empty frame with
  a legacy header when the backing file does not exist.

The file system state is modelled by `FileState` (absent, corrupt, or a
worksheet), the remote backend by an oracle `String → GenOutcome`, and the
wall clock by an explicit `Timestamp` argument standing for
`pd.Timestamp.now()`.  Tables are `DataFrame` values: a column-name list
plus rows of optional strings (`none` models a NaN / empty cell).
-/

namespace MaintenanceReport

/-- A spreadsheet row: one optional string per column (`none` is NaN). -/
abbrev Row := List (Option String)

/-- A pandas DataFrame: column names plus rows aligned to them. -/
structure DataFrame where
  cols : List String
  rows : List Row
deriving DecidableEq

/-- Value of column `c` in a row aligned with `cols` (`none` if the
column is absent or the cell is NaN). -/
def rowLookup (cols : List String) (row : Row) (c : String) : Option String :=
  match cols, row with
  | c0 :: cs, v :: vs => if c0 = c then v else rowLookup cs vs c
  | _, _ => none

/-- Re-align a row stored under `origCols` to the column list `target`
(label-based alignment, as pandas does in `concat` and column selection). -/
def reindexRow (origCols : List String) (row : Row) (target : List String) : Row :=
  target.map (rowLookup origCols row)

/-- `pd.concat([a, b], ignore_index=True)`: columns are the union in order
of appearance, rows are stacked and aligned by label, missing cells NaN. -/
def concatDF (a b : DataFrame) : DataFrame :=
  let cols := a.cols ++ b.cols.filter (fun c => !(a.cols.contains c))
  ⟨cols,
   a.rows.map (fun r => reindexRow a.cols r cols) ++
   b.rows.map (fun r => reindexRow b.cols r cols)⟩

/-- `df[cs]`: label-based column selection.  Succeeds iff every requested
label is present (pandas raises `KeyError` otherwise). -/
def projectCols (df : DataFrame) (cs : List String) : Except Unit DataFrame :=
  if cs.all (fun c => df.cols.contains c) then
    .ok ⟨cs, df.rows.map (fun r => reindexRow df.cols r cs)⟩
  else
    .error ()

/-- An openpyxl worksheet cell: a value plus the style attributes the
script touches (thin border, wrap text, vertical center, bold font). -/
structure Cell where
  value : Option String
  borderThin : Bool := false
  wrapText : Bool := false
  verticalCenter : Bool := false
  bold : Bool := false
deriving DecidableEq

/-- A freshly written cell: value only, default styling. -/
def plainCell (v : Option String) : Cell :=
  { value := v }

/-- An openpyxl worksheet: the cell grid plus per-column widths. -/
structure Worksheet where
  rows : List (List Cell)
  widths : List Nat
deriving DecidableEq

/-- The value matrix of a cell grid (what `pd.read_excel` looks at). -/
def cellValues (rows : List (List Cell)) : List Row :=
  rows.map (List.map Cell.value)

/-- Python `str(cell.value)`: `str(None)` is the 4-character `"None"`. -/
def pyStr (v : Option String) : String :=
  v.getD "None"

/-- `max_length + 2` of the column-width loop: the running maximum of
`len(str(cell.value))` over the column, starting at 0, plus padding 2. -/
def columnWidth (col : List Cell) : Nat :=
  col.foldl (fun acc c => max acc (pyStr c.value).length) 0 + 2

/-- `for row in ws.iter_rows(): cell.border = thin; cell.alignment = ...`. -/
def applyBorderAlign (rows : List (List Cell)) : List (List Cell) :=
  rows.map (List.map (fun c =>
    { c with borderThin := true, wrapText := true, verticalCenter := true }))

/-- `for cell in ws[1]: cell.font = Font(bold=True)`. -/
def boldHeader (rows : List (List Cell)) : List (List Cell) :=
  match rows with
  | [] => []
  | h :: t => h.map (fun c => { c with bold := true }) :: t

/-- The formatting block of `save_to_excel`: borders and alignment on
every cell, widths set to the per-column maximum string length plus 2,
header row in bold. -/
def formatWorksheet (rows : List (List Cell)) : Worksheet :=
  let bordered := applyBorderAlign rows
  let widths := (List.transpose bordered).map columnWidth
  ⟨boldHeader bordered, widths⟩

/-- `updated_data.to_excel(writer, index=False)`: a header row of the
column names followed by the data rows, all with default styling. -/
def dfToSheetRows (df : DataFrame) : List (List Cell) :=
  (df.cols.map (fun c => plainCell (some c))) :: df.rows.map (fun r => r.map plainCell)

/-- `pd.read_excel` on a worksheet: the first row of values is the
header, the remaining rows are the data.  Only cell values matter. -/
def sheetRowsToDF (rows : List (List Cell)) : DataFrame :=
  match cellValues rows with
  | [] => ⟨[], []⟩
  | h :: t => ⟨h.map (fun v => v.getD ""), t⟩

/-- The state of the backing file `generated_reports.xlsx`. -/
inductive FileState where
  | absent
  | corrupt
  | file (ws : Worksheet)
deriving DecidableEq

/-- `os.path.exists(EXCEL_FILE)`. -/
def existsFile : FileState → Bool
  | .absent => false
  | _ => true

/-- `pd.read_excel(EXCEL_FILE)`: fails on a missing or corrupt file,
otherwise returns the value table of the worksheet. -/
def read_excel : FileState → Except Unit DataFrame
  | .file ws => .ok (sheetRowsToDF ws.rows)
  | _ => .error ()

/-- A wall-clock instant, standing for `pd.Timestamp.now()`. -/
structure Timestamp where
  year : Nat
  month : Nat
  day : Nat
  hour : Nat
  minute : Nat
  second : Nat
deriving DecidableEq

/-- Zero-pad the decimal rendering of `n` to width `w`. -/
def padZero (w : Nat) (n : Nat) : String :=
  let s := toString n
  String.mk (List.replicate (w - s.length) '0') ++ s

/-- `ts.strftime("%Y-%m-%d %H:%M:%S")`. -/
def strftime_ymd_hms (t : Timestamp) : String :=
  padZero 4 t.year ++ "-" ++ padZero 2 t.month ++ "-" ++ padZero 2 t.day ++ " " ++
  padZero 2 t.hour ++ ":" ++ padZero 2 t.minute ++ ":" ++ padZero 2 t.second

/-- The fixed header of `save_to_excel`:
`columns = ["Date", "Unit", "Machine", "Technician Name", "Issue", "Generated Report"]`. -/
def columns : List String :=
  ["Date", "Unit", "Machine", "Technician Name", "Issue", "Generated Report"]

/-- The single new row built inside `save_to_excel` (Date from the clock,
the other five cells from the arguments). -/
def newDataRow (unit machine technician_name issue report : String)
    (now : Timestamp) : Row :=
  [some (strftime_ymd_hms now), some unit, some machine, some technician_name,
   some issue, some report]

/-- `new_data = pd.DataFrame([{...}])` of `save_to_excel`. -/
def new_data (unit machine technician_name issue report : String)
    (now : Timestamp) : DataFrame :=
  ⟨columns, [newDataRow unit machine technician_name issue report now]⟩

/-- `save_to_excel(unit, machine, technician_name, issue, report)`:
read the existing file if present (any read or selection error is caught
and the existing content discarded), reconcile the schema, concatenate,
rewrite the file and apply the cosmetic formatting.  Returns the written
worksheet; `now` stands for `pd.Timestamp.now()`. -/
def save_to_excel (unit machine technician_name issue report : String)
    (now : Timestamp) (st : FileState) : Worksheet :=
  let nd := new_data unit machine technician_name issue report now
  let updated_data : DataFrame :=
    if existsFile st then
      match read_excel st with
      | .ok existing_data =>
        if !(columns.all (fun c => existing_data.cols.contains c)) then
          match projectCols existing_data columns with
          | .ok projected => concatDF projected nd
          | .error _ => nd
        else
          concatDF existing_data nd
      | .error _ => nd
    else
      nd
  formatWorksheet (dfToSheetRows updated_data)

/-- The legacy header used by `load_reports` for a missing file. -/
def legacyColumns : List String :=
  ["Unit", "Machine", "Technician", "Issue", "Report"]

/-- `load_reports()`: read the file if it exists (a corrupt file makes the
read raise, which propagates), else an empty frame with the legacy header. -/
def load_reports (st : FileState) : Except Unit DataFrame :=
  if existsFile st then
    read_excel st
  else
    .ok ⟨legacyColumns, []⟩

/-- Outcome of the remote `model.generate_content` call. -/
inductive GenOutcome where
  | success (text : String)
  | failure
deriving DecidableEq

/-- The f-string prompt of `generate_report`. -/
def buildPrompt (unit machine technician_name issue : String) : String :=
  "\n    You are an expert electrical maintenance engineer. Your task is to generate a **concise and professional** one-line report based on the details provided by the technician.\n\n" ++
  "    **Details Provided:**\n" ++
  "    - **Unit**: " ++ unit ++ "\n" ++
  "    - **Machine**: " ++ machine ++ "\n" ++
  "    - **Technician Name**: " ++ technician_name ++ "\n" ++
  "    - **Issue Reported**: " ++ issue ++ "\n\n" ++
  "    **Instructions:**\n" ++
  "    - Write the report in a **clear and professional tone**.\n" ++
  "    - Include key details, such as the unit, machine, and issue.\n" ++
  "    - Maintain a **formal and technical style**, suitable for maintenance logs.\n" ++
  "    - Keep the report **concise (one line only).**\n\n" ++
  "    **Example Output:**\n" ++
  "    \"Technician " ++ technician_name ++ " diagnosed " ++ issue ++ " on " ++ machine ++ " in " ++ unit ++ ", performed necessary maintenance, and restored functionality.\"\n\n" ++
  "    Now, generate a similar report based on the given details.\n    "

/-- `generate_report(unit, machine, technician_name, issue)`: send the
prompt to the backend and return `response.text.strip()`.  There is no
try/except here: a failing remote call propagates to the caller. -/
def generate_report (remote : String → GenOutcome)
    (unit machine technician_name issue : String) : Except Unit String :=
  match remote (buildPrompt unit machine technician_name issue) with
  | .success t => .ok t.trim
  | .failure => .error ()

/-- Modelled from the spec: the deterministic fallback string of §4.1,
`"Issue reported and solved by {technicianName}: {issue}"`.  No such
fallback exists anywhere in `src/report.py`; this definition exists only
to compare the code against the claimed behavior. -/
def fallbackString (technician_name issue : String) : String :=
  "Issue reported and solved by " ++ technician_name ++ ": " ++ issue

/-- What the Generate Report button handler did: either it called
`generate_report` and `save_to_excel` (carrying their results), or it
stopped at the validation warning. -/
inductive SubmitOutcome where
  | generated (report : String) (file : Worksheet)
  | warning
deriving DecidableEq

/-- The `st.button("Generate Report")` handler: if all four fields are
truthy (non-empty), generate and save; otherwise show the warning and
call neither component.  A raise from `generate_report` propagates. -/
def generateButtonHandler (remote : String → GenOutcome)
    (unit machine technician_name issue : String)
    (now : Timestamp) (st : FileState) : Except Unit SubmitOutcome :=
  if !unit.isEmpty && !machine.isEmpty && !technician_name.isEmpty && !issue.isEmpty then
    match generate_report remote unit machine technician_name issue with
    | .ok report =>
      .ok (.generated report (save_to_excel unit machine technician_name issue report now st))
    | .error e => .error e
  else
    .ok .warning

/-! ### Helper lemmas -/

theorem cellValues_applyBorderAlign (rows : List (List Cell)) :
    cellValues (applyBorderAlign rows) = cellValues rows := by
  simp [cellValues, applyBorderAlign, List.map_map, Function.comp]

theorem cellValues_boldHeader (rows : List (List Cell)) :
    cellValues (boldHeader rows) = cellValues rows := by
  cases rows with
  | nil => rfl
  | cons h t => simp [cellValues, boldHeader, List.map_map, Function.comp]

theorem formatWorksheet_cellValues (rows : List (List Cell)) :
    cellValues (formatWorksheet rows).rows = cellValues rows := by
  simp [formatWorksheet, cellValues_boldHeader, cellValues_applyBorderAlign]

theorem sheetRowsToDF_congr {a b : List (List Cell)}
    (h : cellValues a = cellValues b) : sheetRowsToDF a = sheetRowsToDF b := by
  simp [sheetRowsToDF, h]

theorem cellValues_dfToSheetRows (df : DataFrame) :
    cellValues (dfToSheetRows df) = (df.cols.map some) :: df.rows := by
  simp [cellValues, dfToSheetRows, List.map_map, plainCell,
    show Cell.value ∘ plainCell = id from rfl]

theorem sheetRowsToDF_dfToSheetRows (df : DataFrame) :
    sheetRowsToDF (dfToSheetRows df) = df := by
  cases df with
  | mk cols rows =>
    simp [sheetRowsToDF, cellValues_dfToSheetRows, List.map_map,
      show (fun v : Option String => v.getD "") ∘ some = id from rfl]

theorem sheetRowsToDF_format_dfToSheetRows (df : DataFrame) :
    sheetRowsToDF (formatWorksheet (dfToSheetRows df)).rows = df := by
  rw [sheetRowsToDF_congr (formatWorksheet_cellValues (dfToSheetRows df)),
    sheetRowsToDF_dfToSheetRows]

theorem rowLookup_not_mem {c : String} {cols : List String} (row : Row)
    (h : c ∉ cols) : rowLookup cols row c = none := by
  induction cols generalizing row with
  | nil => cases row <;> rfl
  | cons c0 cs ih =>
    cases row with
    | nil => rfl
    | cons v vs =>
      have hne : c0 ≠ c := fun he => h (he ▸ List.mem_cons_self c0 cs)
      simp [rowLookup, hne, ih vs (fun hm => h (List.mem_cons_of_mem c0 hm))]

theorem rowLookup_map_self {c : String} {cols : List String}
    (f : String → Option String) (h : c ∈ cols) :
    rowLookup cols (cols.map f) c = f c := by
  induction cols with
  | nil => cases h
  | cons c0 cs ih =>
    by_cases he : c0 = c
    · simp [rowLookup, he]
    · have hm : c ∈ cs := by
        cases h with
        | head => exact absurd rfl he
        | tail _ hm => exact hm
      simp [rowLookup, he, ih hm]

theorem reindexRow_self {cols : List String} {row : Row}
    (hnd : cols.Nodup) (hlen : row.length = cols.length) :
    reindexRow cols row cols = row := by
  induction cols generalizing row with
  | nil =>
    cases row with
    | nil => rfl
    | cons v vs => simp at hlen
  | cons c0 cs ih =>
    cases row with
    | nil => simp at hlen
    | cons v vs =>
      have hnotmem : c0 ∉ cs := (List.nodup_cons.mp hnd).1
      have hnd' : cs.Nodup := (List.nodup_cons.mp hnd).2
      have hlen' : vs.length = cs.length := by simpa using hlen
      have hmap : cs.map (rowLookup (c0 :: cs) (v :: vs)) =
          cs.map (rowLookup cs vs) := by
        refine List.map_congr_left (fun c hc => ?_)
        have hne : c0 ≠ c := fun he => hnotmem (he ▸ hc)
        show (if c0 = c then v else rowLookup cs vs c) = rowLookup cs vs c
        rw [if_neg hne]
      calc reindexRow (c0 :: cs) (v :: vs) (c0 :: cs)
          = rowLookup (c0 :: cs) (v :: vs) c0 ::
              cs.map (rowLookup (c0 :: cs) (v :: vs)) := by
            simp [reindexRow]
        _ = v :: cs.map (rowLookup cs vs) := by
            rw [hmap]
            show (if c0 = c0 then v else rowLookup cs vs c0) :: _ = _
            rw [if_pos rfl]
        _ = v :: vs := by
            show v :: reindexRow cs vs cs = v :: vs
            rw [ih hnd' hlen']

theorem concatDF_cols_of_subset {a b : DataFrame}
    (h : ∀ c ∈ b.cols, c ∈ a.cols) : (concatDF a b).cols = a.cols := by
  have hfil : b.cols.filter (fun c => !(a.cols.contains c)) = [] := by
    refine List.filter_eq_nil_iff.mpr (fun c hc => ?_)
    simp [h c hc]
  rw [show (concatDF a b).cols
      = a.cols ++ b.cols.filter (fun c => !(a.cols.contains c)) from rfl,
    hfil, List.append_nil]

theorem projectCols_of_all_false {df : DataFrame} {cs : List String}
    (h : cs.all (fun c => df.cols.contains c) = false) :
    projectCols df cs = Except.error () := by
  unfold projectCols
  rw [h]
  rfl

theorem save_to_excel_file (u m t i r : String) (ts : Timestamp) (ws : Worksheet) :
    save_to_excel u m t i r ts (FileState.file ws)
      = formatWorksheet (dfToSheetRows (
          if !(columns.all (fun c => (sheetRowsToDF ws.rows).cols.contains c)) then
            match projectCols (sheetRowsToDF ws.rows) columns with
            | .ok projected => concatDF projected (new_data u m t i r ts)
            | .error _ => new_data u m t i r ts
          else concatDF (sheetRowsToDF ws.rows) (new_data u m t i r ts))) := rfl

theorem save_to_excel_file_of_all_false (u m t i r : String) (ts : Timestamp)
    (ws : Worksheet)
    (h : columns.all (fun c => (sheetRowsToDF ws.rows).cols.contains c) = false) :
    save_to_excel u m t i r ts (FileState.file ws)
      = formatWorksheet (dfToSheetRows (new_data u m t i r ts)) := by
  rw [save_to_excel_file, h, projectCols_of_all_false h]
  rfl

theorem save_to_excel_file_of_all_true (u m t i r : String) (ts : Timestamp)
    (ws : Worksheet)
    (h : columns.all (fun c => (sheetRowsToDF ws.rows).cols.contains c) = true) :
    save_to_excel u m t i r ts (FileState.file ws)
      = formatWorksheet (dfToSheetRows
          (concatDF (sheetRowsToDF ws.rows) (new_data u m t i r ts))) := by
  rw [save_to_excel_file, h]
  rfl

theorem load_reports_file (ws : Worksheet) :
    load_reports (FileState.file ws) = Except.ok (sheetRowsToDF ws.rows) := rfl

theorem isEmpty_eq_false_of_ne {s : String} (h : s ≠ "") : s.isEmpty = false := by
  cases he : s.isEmpty
  · rfl
  · exact absurd ((String.isEmpty_iff s).mp he) h

/-! ### Claim theorems -/

/-- C1, counterexample: with a failing backend, `generate_report` on the
concrete input (Unit 5, Compressor A1, John Doe, High temperature issue)
raises (returns `Except.error`), and in particular does not return the
fallback string claimed by the spec — no fallback exists in the code. -/
theorem generate_report_no_fallback_counterexample :
    generate_report (fun _ => GenOutcome.failure)
        "Unit 5" "Compressor A1" "John Doe" "High temperature issue"
      = Except.error () ∧
    (Except.error () : Except Unit String)
      ≠ Except.ok (fallbackString "John Doe" "High temperature issue") := by
  exact ⟨rfl, fun h => Except.noConfusion h⟩

/-- C1, amended: `generate_report` has no failure handling at all: when
the remote call fails the error propagates to the caller, and when it
succeeds the trimmed response text is returned.  The spec's fallback
string is never produced. -/
theorem generate_report_propagates_failure
    (remote : String → GenOutcome) (u m t i : String) :
    (remote (buildPrompt u m t i) = GenOutcome.failure →
      generate_report remote u m t i = Except.error ()) ∧
    (∀ txt, remote (buildPrompt u m t i) = GenOutcome.success txt →
      generate_report remote u m t i = Except.ok txt.trim) := by
  constructor
  · intro h
    simp [generate_report, h]
  · intro txt h
    simp [generate_report, h]

/-- C1, witness: the amended statement evaluated at concrete inputs, for
both the failing and the succeeding backend. -/
theorem generate_report_propagates_failure_witness :
    generate_report (fun _ => GenOutcome.failure) "U" "M" "T" "I"
      = Except.error () ∧
    generate_report (fun _ => GenOutcome.success "  Report done.  ") "U" "M" "T" "I"
      = Except.ok (String.trim "  Report done.  ") := by
  exact ⟨(generate_report_propagates_failure (fun _ => GenOutcome.failure)
        "U" "M" "T" "I").1 rfl,
    (generate_report_propagates_failure (fun _ => GenOutcome.success "  Report done.  ")
        "U" "M" "T" "I").2 "  Report done.  " rfl⟩

/-- C2, counterexample: `load_reports` on a missing backing file returns
an empty frame whose header is the legacy five-column list
`[Unit, Machine, Technician, Issue, Report]`, not the fixed six-column
header `columns` claimed by the spec. -/
theorem load_reports_missing_file_counterexample :
    load_reports FileState.absent = Except.ok ⟨legacyColumns, []⟩ ∧
    legacyColumns ≠ columns := by
  exact ⟨rfl, by decide⟩

/-- C2, amended: `load_reports` on a non-existent backing file never
raises and returns an empty sequence, but its column schema is the
legacy header `[Unit, Machine, Technician, Issue, Report]`. -/
theorem load_reports_missing_file :
    load_reports FileState.absent = Except.ok ⟨legacyColumns, []⟩ := rfl

/-- C4: appending when the backing file exists but is unreadable as a
table succeeds and yields a log holding exactly the one new record; the
prior content is discarded, not merged. -/
theorem save_on_corrupt_file (u m t i r : String) (ts : Timestamp) :
    load_reports (FileState.file (save_to_excel u m t i r ts FileState.corrupt))
      = Except.ok ⟨columns, [newDataRow u m t i r ts]⟩ := by
  simp [save_to_excel, existsFile, read_excel, load_reports,
    sheetRowsToDF_format_dfToSheetRows, new_data]

/-- C6: appending a record to a fresh (absent) log and loading it back
returns exactly one row whose Unit, Machine, Technician Name, Issue and
Generated Report cells are the appended values (and whose Date cell is
the formatted append-time clock). -/
theorem append_roundtrip (u m t i r : String) (ts : Timestamp) :
    load_reports (FileState.file (save_to_excel u m t i r ts FileState.absent))
      = Except.ok ⟨columns,
          [[some (strftime_ymd_hms ts), some u, some m, some t, some i, some r]]⟩ := by
  simp [save_to_excel, existsFile, read_excel, load_reports,
    sheetRowsToDF_format_dfToSheetRows, new_data, newDataRow]

/-- C7: the cosmetic formatting pass of `save_to_excel` (thin borders,
wrap/vertical-center alignment, column widths, bold header) leaves the
value of every cell of the worksheet unchanged. -/
theorem format_preserves_cell_values (rows : List (List Cell)) :
    cellValues (formatWorksheet rows).rows = cellValues rows :=
  formatWorksheet_cellValues rows

/-- C10: the Date cell of the appended record is produced inside
`save_to_excel` from the clock argument (standing for
`pd.Timestamp.now()`), formatted with `"%Y-%m-%d %H:%M:%S"`; the caller
supplies only the other five fields. -/
theorem date_from_clock_in_save (u m t i r : String) (ts : Timestamp) :
    sheetRowsToDF (save_to_excel u m t i r ts FileState.absent).rows
      = ⟨columns,
          [[some (strftime_ymd_hms ts), some u, some m, some t, some i, some r]]⟩ ∧
    strftime_ymd_hms ⟨2026, 1, 2, 3, 4, 5⟩ = "2026-01-02 03:04:05" := by
  constructor
  · simp [save_to_excel, existsFile,
      sheetRowsToDF_format_dfToSheetRows, new_data, newDataRow]
  · rfl

/-- C3, counterexample: an existing file holding every fixed-header
column plus an extra one is not projected onto the fixed header during
append — the extra column survives in the rewritten file, so the claimed
projection does not happen. -/
theorem save_projection_counterexample :
    (sheetRowsToDF (save_to_excel "u2" "m2" "t2" "i2" "r2" ⟨2026, 1, 2, 3, 4, 5⟩
        (FileState.file ⟨dfToSheetRows ⟨columns ++ ["Extra"],
          [[some "d1", some "u1", some "m1", some "t1", some "i1", some "r1", some "x1"]]⟩,
          []⟩)).rows).cols
      = columns ++ ["Extra"] ∧ columns ++ ["Extra"] ≠ columns := by
  exact ⟨by decide, by decide⟩

/-- C3, amended: the schema branch of `save_to_excel` attempts the
projection exactly when some fixed-header column is missing, where it
always raises and is swallowed by the except, discarding the existing
rows (only the new record is kept); when every fixed-header column is
present among the existing columns no projection is performed and the
existing columns are kept as they are. -/
theorem save_schema_reconciliation (u m t i r : String) (ts : Timestamp)
    (df : DataFrame) (w : List Nat) :
    (columns.all (fun c => df.cols.contains c) = false →
      sheetRowsToDF (save_to_excel u m t i r ts
          (FileState.file ⟨dfToSheetRows df, w⟩)).rows
        = ⟨columns, [newDataRow u m t i r ts]⟩) ∧
    (columns.all (fun c => df.cols.contains c) = true →
      (sheetRowsToDF (save_to_excel u m t i r ts
          (FileState.file ⟨dfToSheetRows df, w⟩)).rows).cols
        = df.cols) := by
  have hws : sheetRowsToDF ((⟨dfToSheetRows df, w⟩ : Worksheet).rows) = df :=
    sheetRowsToDF_dfToSheetRows df
  constructor
  · intro h
    have hall : columns.all (fun c =>
        (sheetRowsToDF ((⟨dfToSheetRows df, w⟩ : Worksheet).rows)).cols.contains c)
        = false := by rw [hws]; exact h
    rw [save_to_excel_file_of_all_false u m t i r ts _ hall,
      sheetRowsToDF_format_dfToSheetRows, new_data]
  · intro h
    have hall : columns.all (fun c =>
        (sheetRowsToDF ((⟨dfToSheetRows df, w⟩ : Worksheet).rows)).cols.contains c)
        = true := by rw [hws]; exact h
    rw [save_to_excel_file_of_all_true u m t i r ts _ hall,
      sheetRowsToDF_format_dfToSheetRows, hws]
    refine concatDF_cols_of_subset (fun c hc => ?_)
    simpa using List.all_eq_true.mp h c hc

/-- C3, witness: the amended statement at concrete inputs — a legacy
five-column file is discarded (projection impossible), and a file with
all fixed columns plus `Extra2` keeps its column list. -/
theorem save_schema_reconciliation_witness :
    sheetRowsToDF (save_to_excel "u3" "m3" "t3" "i3" "r3" ⟨2026, 3, 4, 5, 6, 7⟩
        (FileState.file ⟨dfToSheetRows ⟨legacyColumns,
          [[some "u0", some "m0", some "t0", some "i0", some "r0"]]⟩, []⟩)).rows
      = ⟨columns, [newDataRow "u3" "m3" "t3" "i3" "r3" ⟨2026, 3, 4, 5, 6, 7⟩]⟩ ∧
    (sheetRowsToDF (save_to_excel "u4" "m4" "t4" "i4" "r4" ⟨2026, 3, 4, 5, 6, 7⟩
        (FileState.file ⟨dfToSheetRows ⟨columns ++ ["Extra2"], []⟩, []⟩)).rows).cols
      = columns ++ ["Extra2"] := by
  exact ⟨(save_schema_reconciliation "u3" "m3" "t3" "i3" "r3" ⟨2026, 3, 4, 5, 6, 7⟩
      ⟨legacyColumns, [[some "u0", some "m0", some "t0", some "i0", some "r0"]]⟩
      []).1 (by decide),
    (save_schema_reconciliation "u4" "m4" "t4" "i4" "r4" ⟨2026, 3, 4, 5, 6, 7⟩
      ⟨columns ++ ["Extra2"], []⟩ []).2 (by decide)⟩

/-- C5: appending two records in order to a fresh log and loading the
result returns exactly the two records, first then second — the new row
always goes to the end, without deduplication (the statement covers
identical records) or sorting. -/
theorem append_ordering (u1 m1 t1 i1 r1 u2 m2 t2 i2 r2 : String)
    (ts1 ts2 : Timestamp) :
    load_reports (FileState.file (save_to_excel u2 m2 t2 i2 r2 ts2
        (FileState.file (save_to_excel u1 m1 t1 i1 r1 ts1 FileState.absent))))
      = Except.ok ⟨columns,
          [newDataRow u1 m1 t1 i1 r1 ts1, newDataRow u2 m2 t2 i2 r2 ts2]⟩ := by
  have hrow1 : reindexRow columns (newDataRow u1 m1 t1 i1 r1 ts1) columns
      = newDataRow u1 m1 t1 i1 r1 ts1 := reindexRow_self (by decide) rfl
  have hrow2 : reindexRow columns (newDataRow u2 m2 t2 i2 r2 ts2) columns
      = newDataRow u2 m2 t2 i2 r2 ts2 := reindexRow_self (by decide) rfl
  have hfil : columns.filter (fun c => !(columns.contains c)) = [] := by decide
  have hconcat : concatDF (new_data u1 m1 t1 i1 r1 ts1) (new_data u2 m2 t2 i2 r2 ts2)
      = ⟨columns, [newDataRow u1 m1 t1 i1 r1 ts1, newDataRow u2 m2 t2 i2 r2 ts2]⟩ := by
    show (⟨columns ++ columns.filter (fun c => !(columns.contains c)),
      [reindexRow columns (newDataRow u1 m1 t1 i1 r1 ts1)
        (columns ++ columns.filter (fun c => !(columns.contains c))),
       reindexRow columns (newDataRow u2 m2 t2 i2 r2 ts2)
        (columns ++ columns.filter (fun c => !(columns.contains c)))]⟩ : DataFrame) = _
    rw [hfil]
    simp only [List.append_nil]
    rw [hrow1, hrow2]
  have hsave1 : save_to_excel u1 m1 t1 i1 r1 ts1 FileState.absent
      = formatWorksheet (dfToSheetRows (new_data u1 m1 t1 i1 r1 ts1)) := rfl
  have hws1 : sheetRowsToDF (save_to_excel u1 m1 t1 i1 r1 ts1 FileState.absent).rows
      = new_data u1 m1 t1 i1 r1 ts1 := by
    rw [hsave1]
    exact sheetRowsToDF_format_dfToSheetRows _
  have hall : columns.all (fun c =>
      (sheetRowsToDF (save_to_excel u1 m1 t1 i1 r1 ts1 FileState.absent).rows).cols.contains c)
      = true := by
    rw [hws1]
    show columns.all (fun c => columns.contains c) = true
    decide
  rw [save_to_excel_file_of_all_true u2 m2 t2 i2 r2 ts2 _ hall, load_reports_file,
    sheetRowsToDF_format_dfToSheetRows, hws1, hconcat]

/-- C8: the Generate Report button handler rejects a submission with any
empty field, returning only the warning and invoking neither
`generate_report` nor `save_to_excel`; with all four fields non-empty it
invokes both. -/
theorem button_handler_validation (remote : String → GenOutcome)
    (u m t i : String) (ts : Timestamp) (st : FileState) :
    ((u = "" ∨ m = "" ∨ t = "" ∨ i = "") →
      generateButtonHandler remote u m t i ts st = Except.ok SubmitOutcome.warning) ∧
    (u ≠ "" → m ≠ "" → t ≠ "" → i ≠ "" →
      generateButtonHandler remote u m t i ts st =
        match generate_report remote u m t i with
        | .ok report => Except.ok (SubmitOutcome.generated report
            (save_to_excel u m t i report ts st))
        | .error e => Except.error e) := by
  constructor
  · intro h
    have hfalse : (!u.isEmpty && !m.isEmpty && !t.isEmpty && !i.isEmpty) = false := by
      rcases h with h | h | h | h <;> simp [(String.isEmpty_iff _).mpr h]
    simp [generateButtonHandler, hfalse]
  · intro hu hm ht hi
    have hcond : (!u.isEmpty && !m.isEmpty && !t.isEmpty && !i.isEmpty) = true := by
      simp [isEmpty_eq_false_of_ne hu, isEmpty_eq_false_of_ne hm,
        isEmpty_eq_false_of_ne ht, isEmpty_eq_false_of_ne hi]
    simp [generateButtonHandler, hcond]

/-- C8, witness: the handler on an empty Unit field warns without
generating, and on a complete submission generates and saves. -/
theorem button_handler_validation_witness :
    generateButtonHandler (fun _ => GenOutcome.failure) "" "Compressor A1" "John Doe"
        "High temperature issue" ⟨2026, 1, 2, 3, 4, 5⟩ FileState.absent
      = Except.ok SubmitOutcome.warning ∧
    generateButtonHandler (fun _ => GenOutcome.success "Done.") "Unit 5" "Compressor A1"
        "John Doe" "High temperature issue" ⟨2026, 1, 2, 3, 4, 5⟩ FileState.absent
      = (match generate_report (fun _ => GenOutcome.success "Done.") "Unit 5" "Compressor A1"
            "John Doe" "High temperature issue" with
        | .ok report => Except.ok (SubmitOutcome.generated report
            (save_to_excel "Unit 5" "Compressor A1" "John Doe" "High temperature issue"
              report ⟨2026, 1, 2, 3, 4, 5⟩ FileState.absent))
        | .error e => Except.error e) := by
  exact ⟨(button_handler_validation (fun _ => GenOutcome.failure) "" "Compressor A1"
      "John Doe" "High temperature issue" ⟨2026, 1, 2, 3, 4, 5⟩ FileState.absent).1
        (Or.inl rfl),
    (button_handler_validation (fun _ => GenOutcome.success "Done.") "Unit 5"
      "Compressor A1" "John Doe" "High temperature issue" ⟨2026, 1, 2, 3, 4, 5⟩
      FileState.absent).2 (by decide) (by decide) (by decide) (by decide)⟩

/-- C9: when the existing file reads back with all six fixed-header
columns present, append keeps the existing column list (extra columns
survive), the existing rows are preserved in order with the new record
re-aligned at the end, and the new record holds an empty (NaN) value in
every extra column. -/
theorem save_preserves_extra_columns (u m t i r : String) (ts : Timestamp)
    (df : DataFrame) (w : List Nat)
    (hall : columns.all (fun c => df.cols.contains c) = true)
    (hnd : df.cols.Nodup)
    (hrect : ∀ row ∈ df.rows, row.length = df.cols.length) :
    (sheetRowsToDF (save_to_excel u m t i r ts
        (FileState.file ⟨dfToSheetRows df, w⟩)).rows).cols = df.cols ∧
    (sheetRowsToDF (save_to_excel u m t i r ts
        (FileState.file ⟨dfToSheetRows df, w⟩)).rows).rows
      = df.rows ++ [reindexRow columns (newDataRow u m t i r ts) df.cols] ∧
    (∀ c ∈ df.cols, c ∉ columns →
      rowLookup df.cols (reindexRow columns (newDataRow u m t i r ts) df.cols) c
        = none) := by
  have hsub : ∀ c ∈ columns, c ∈ df.cols := fun c hc => by
    simpa using List.all_eq_true.mp hall c hc
  have hws : sheetRowsToDF ((⟨dfToSheetRows df, w⟩ : Worksheet).rows) = df :=
    sheetRowsToDF_dfToSheetRows df
  have hall' : columns.all (fun c =>
      (sheetRowsToDF ((⟨dfToSheetRows df, w⟩ : Worksheet).rows)).cols.contains c)
      = true := by rw [hws]; exact hall
  have hfil : columns.filter (fun c => !(df.cols.contains c)) = [] := by
    refine List.filter_eq_nil_iff.mpr (fun c hc => ?_)
    simp [hsub c hc]
  have hcols : (concatDF df (new_data u m t i r ts)).cols = df.cols :=
    concatDF_cols_of_subset (fun c hc => hsub c hc)
  have hmap : df.rows.map (fun row => reindexRow df.cols row df.cols) = df.rows := by
    calc df.rows.map (fun row => reindexRow df.cols row df.cols)
        = df.rows.map id :=
          List.map_congr_left (fun row hrow => reindexRow_self hnd (hrect row hrow))
      _ = df.rows := List.map_id df.rows
  have hrows : (concatDF df (new_data u m t i r ts)).rows
      = df.rows ++ [reindexRow columns (newDataRow u m t i r ts) df.cols] := by
    show df.rows.map (fun row => reindexRow df.cols row
          (df.cols ++ columns.filter (fun c => !(df.cols.contains c)))) ++
        [reindexRow columns (newDataRow u m t i r ts)
          (df.cols ++ columns.filter (fun c => !(df.cols.contains c)))]
      = df.rows ++ [reindexRow columns (newDataRow u m t i r ts) df.cols]
    rw [hfil]
    simp only [List.append_nil]
    rw [hmap]
  rw [save_to_excel_file_of_all_true u m t i r ts _ hall',
    sheetRowsToDF_format_dfToSheetRows, hws]
  refine ⟨hcols, hrows, fun c hc hnc => ?_⟩
  rw [show reindexRow columns (newDataRow u m t i r ts) df.cols
      = df.cols.map (rowLookup columns (newDataRow u m t i r ts)) from rfl,
    rowLookup_map_self _ hc, rowLookup_not_mem _ hnc]

/-- C9, witness: the statement at a concrete file with an `Extra3`
column — the column survives, the old row is kept, and the appended row
reads back empty under `Extra3`. -/
theorem save_preserves_extra_columns_witness :
    (sheetRowsToDF (save_to_excel "u5" "m5" "t5" "i5" "r5" ⟨2026, 5, 6, 7, 8, 9⟩
        (FileState.file ⟨dfToSheetRows ⟨columns ++ ["Extra3"],
          [[some "d0", some "u0", some "m0", some "t0", some "i0", some "r0", some "x0"]]⟩,
          []⟩)).rows).cols = columns ++ ["Extra3"] ∧
    (sheetRowsToDF (save_to_excel "u5" "m5" "t5" "i5" "r5" ⟨2026, 5, 6, 7, 8, 9⟩
        (FileState.file ⟨dfToSheetRows ⟨columns ++ ["Extra3"],
          [[some "d0", some "u0", some "m0", some "t0", some "i0", some "r0", some "x0"]]⟩,
          []⟩)).rows).rows
      = [[some "d0", some "u0", some "m0", some "t0", some "i0", some "r0", some "x0"]]
        ++ [reindexRow columns (newDataRow "u5" "m5" "t5" "i5" "r5" ⟨2026, 5, 6, 7, 8, 9⟩)
              (columns ++ ["Extra3"])] ∧
    rowLookup (columns ++ ["Extra3"])
        (reindexRow columns (newDataRow "u5" "m5" "t5" "i5" "r5" ⟨2026, 5, 6, 7, 8, 9⟩)
          (columns ++ ["Extra3"])) "Extra3" = none := by
  have h := save_preserves_extra_columns "u5" "m5" "t5" "i5" "r5" ⟨2026, 5, 6, 7, 8, 9⟩
    ⟨columns ++ ["Extra3"],
      [[some "d0", some "u0", some "m0", some "t0", some "i0", some "r0", some "x0"]]⟩
    [] (by decide) (by decide) (by decide)
  exact ⟨h.1, h.2.1, h.2.2 "Extra3" (by decide) (by decide)⟩

end MaintenanceReport
